import Mathlib

/-!
Verification of the bvp forecasting services and query helpers.

Shallow embedding conventions:
* `datetime` values and `timedelta` values are modelled as integers counting
  minutes, so `timedelta(minutes=15)` becomes the literal `15`.
* Python functions that can raise are modelled with `Except` or `Option`.
  Where SQLAlchemy builds a filter expression from a `None` operand, the
  operand is coerced to a NULL bind parameter (operator dispatch reaches the
  column expression's reflected operator), and a SQL comparison against NULL
  is never true: such a filter keeps no rows rather than raising.
* SQLAlchemy queries over timed-value tables are modelled as lists of rows,
  and query `.filter(...)` calls become `List.filter` with the corresponding
  decidable predicate on a row.
* Database side effects and the job queue are modelled by explicit traces of
  actions (for `make_forecasts`) and by the record of created and enqueued
  job specifications (for `create_forecasting_jobs`).
-/

namespace Bvp

abbrev Datetime := Int
abbrev Timedelta := Int

/-! ### Helper lemmas about `List.min?` and `List.max?` over `Int`

Python's `max(lags)` on a non-empty list and the `order_by(...).first()`
queries correspond to `List.max?` / `List.min?` on the list of values. -/

theorem intMax?_eq_some_iff (l : List Int) (a : Int) :
    l.max? = some a ↔ a ∈ l ∧ ∀ b ∈ l, b ≤ a :=
  @List.max?_eq_some_iff Int a _ _ ⟨fun h1 h2 => le_antisymm h1 h2⟩
    (fun x => le_refl x) (fun x y => max_choice x y) (fun _ _ _ => max_le_iff) l

theorem intMin?_eq_some_iff (l : List Int) (a : Int) :
    l.min? = some a ↔ a ∈ l ∧ ∀ b ∈ l, a ≤ b :=
  @List.min?_eq_some_iff Int a _ _ ⟨fun h1 h2 => le_antisymm h1 h2⟩
    (fun x => le_refl x) (fun x y => min_choice x y) (fun _ _ _ => le_min_iff) l

/-! ### src/bvp/data/models/forecasting/utils.py -/

/-- The three raise sites of `NotEnoughDataException` in
`check_data_availability`, with the suggested replacement date carried by the
two "not enough data" messages. -/
inductive NotEnoughDataException where
  | noData
  | notEnoughBeforeStart (suggested_start : Datetime)
  | notEnoughBeforeEnd (suggested_end : Datetime)
deriving DecidableEq

/-- `check_data_availability`: `data` is the list of datetimes of the values
stored for the asset; the first/last query results are its minimum and
maximum.  The resolution `timedelta(minutes=15)` is the literal `15`. -/
def check_data_availability (data : List Datetime)
    (forecast_start forecast_end : Datetime)
    (query_window : Datetime × Datetime) (horizon : Timedelta) :
    Except NotEnoughDataException Unit :=
  match data.min?, data.max? with
  | some first, some last =>
    if query_window.1 < first then
      .error (.notEnoughBeforeStart (forecast_start + (first - query_window.1)))
    else if query_window.2 - horizon > last + 15 then
      .error (.notEnoughBeforeEnd (forecast_end + (last - (query_window.2 - horizon))))
    else
      .ok ()
  | _, _ => .error .noData

/-- `get_query_window`: `lags.max?` is `none` exactly when the Python branch
`if not lags` is taken. -/
def get_query_window (training_start : Datetime) (e : Datetime)
    (lags : List Timedelta) : Datetime × Datetime :=
  match lags.max? with
  | none => (training_start, e)
  | some m => (training_start - m, e)

/-- Claim C3: `check_data_availability` raises `NotEnoughDataException`
exactly when there is no data at all, or the first available datetime is
later than `query_window[0]`, or `query_window[1] - horizon` is later than
the last available datetime plus 15 minutes; otherwise it returns normally. -/
theorem check_data_availability_spec (data : List Datetime)
    (forecast_start forecast_end : Datetime)
    (query_window : Datetime × Datetime) (horizon : Timedelta) :
    ((∃ e, check_data_availability data forecast_start forecast_end
        query_window horizon = .error e) ↔
      (data = [] ∨
        (∃ f, data.min? = some f ∧ query_window.1 < f) ∨
        (∃ l, data.max? = some l ∧ query_window.2 - horizon > l + 15))) ∧
    ((check_data_availability data forecast_start forecast_end
        query_window horizon = .ok ()) ↔
      ¬(data = [] ∨
        (∃ f, data.min? = some f ∧ query_window.1 < f) ∨
        (∃ l, data.max? = some l ∧ query_window.2 - horizon > l + 15))) := by
  rcases hmin : data.min? with _ | f
  · have hnil : data = [] := List.min?_eq_none_iff.mp hmin
    subst hnil
    simp [check_data_availability]
  · have hne : data ≠ [] := by
      intro h
      subst h
      simp [List.min?] at hmin
    rcases hmax : data.max? with _ | l
    · exact absurd (List.max?_eq_none_iff.mp hmax) hne
    · simp only [check_data_availability, hmin, hmax]
      by_cases h1 : query_window.1 < f
      · constructor
        · simp [h1, hne]
        · simp [h1, hne]
      · by_cases h2 : query_window.2 - horizon > l + 15
        · constructor
          · simp [h1, h2, hne]
          · simp [h1, h2, hne]
        · constructor
          · simp [h1, h2, hne]
          · simp [h1, h2, hne]

/-- Claim C8: `get_query_window` returns `(training_start - max lags, end)`
for non-empty `lags` and `(training_start, end)` for empty `lags`; hence the
query start is at or before `training_start - lag` for every `lag`, and the
query end is always the given `end`. -/
theorem get_query_window_spec (training_start : Datetime) (e : Datetime)
    (lags : List Timedelta) :
    (lags = [] → get_query_window training_start e lags = (training_start, e)) ∧
    (∀ m, lags.max? = some m →
      get_query_window training_start e lags = (training_start - m, e)) ∧
    (∀ lag ∈ lags, (get_query_window training_start e lags).1 ≤ training_start - lag) ∧
    (get_query_window training_start e lags).2 = e := by
  refine ⟨?_, ?_, ?_, ?_⟩
  · intro h
    subst h
    rfl
  · intro m hm
    simp [get_query_window, hm]
  · intro lag hlag
    rcases hm : lags.max? with _ | m
    · exact absurd (List.max?_eq_none_iff.mp hm ▸ hlag) (List.not_mem_nil lag)
    · have hle : lag ≤ m := ((intMax?_eq_some_iff lags m).mp hm).2 lag hlag
      have heq : get_query_window training_start e lags = (training_start - m, e) := by
        simp [get_query_window, hm]
      rw [heq]
      exact sub_le_sub_left hle training_start
  · rcases hm : lags.max? with _ | m <;> simp [get_query_window, hm]

/-- Witness for C8 at `training_start = 100`, `end = 200`, `lags = [10, 5]`. -/
theorem get_query_window_spec_witness :
    get_query_window 100 200 [10, 5] = (90, 200) :=
  (get_query_window_spec 100 200 [10, 5]).2.1 10 (by decide)

/-! ### src/bvp/data/queries/utils.py -/

/-- A row of a timed-value table (`Power`/`Price`/`Weather`), keyed by
`(datetime, horizon, data_source_id, value)` for a fixed asset. -/
structure TsRow where
  datetime : Datetime
  horizon : Timedelta
  value : Int
  data_source_id : Int
deriving DecidableEq

/-- A row of the `DataSource` table; `id` is its primary key. -/
structure DataSource where
  id : Int
  type : String
deriving DecidableEq

/-- `add_user_source_filter`: `sources` is the `DataSource` table, `rows` the
query so far.  `user_source_ids` is `none` for `None`; the single-`int` form
is modelled as a one-element list, matching the wrapping done by the code. -/
def add_user_source_filter (sources : List DataSource) (rows : List TsRow)
    (user_source_ids : Option (List Int)) : List TsRow :=
  match user_source_ids with
  | none => rows
  | some ids =>
    if ids.isEmpty then rows
    else
      let ignorable_user_sources :=
        (sources.filter fun s => decide (s.type = "user")).filter
          fun s => decide (s.id ∉ ids)
      let ignorable_user_source_ids := ignorable_user_sources.map DataSource.id
      rows.filter fun r => decide (r.data_source_id ∉ ignorable_user_source_ids)

/-- `add_horizon_filter`: the query is a list of rows and `event_resolution`
is the asset class's event resolution.  The `Option` result distinguishes an
exception raised while building the filter expressions (`none`) from a built
query; no branch raises: when `end` is `None`, the subtraction
`end - (cls.datetime + asset_class.event_resolution)` dispatches to the
column expression's reflected subtraction, which coerces `None` to a NULL
bind parameter, and the resulting comparison against NULL is never true, so
the filter in that branch keeps no rows. -/
def add_horizon_filter (rows : List TsRow) (e? : Option Datetime)
    (event_resolution : Timedelta)
    (horizon_window : Option Timedelta × Option Timedelta)
    (rolling : Bool) (belief_time : Option Datetime) :
    Option (List TsRow) :=
  let rows0 :=
    match belief_time with
    | none => rows
    | some bt =>
      rows.filter fun r => decide (r.datetime + event_resolution - r.horizon ≤ bt)
  match horizon_window.1, horizon_window.2 with
  | some short_horizon, some long_horizon =>
    if short_horizon = long_horizon then
      if rolling then
        some (rows0.filter fun r => decide (r.horizon = short_horizon))
      else
        some (rows0.filter fun r =>
          match e? with
          | none => false
          | some e =>
            decide (r.horizon = short_horizon - (e - (r.datetime + event_resolution))))
    else
      if rolling then
        some ((rows0.filter fun r => decide (short_horizon ≤ r.horizon)).filter
          fun r => decide (r.horizon ≤ long_horizon))
      else
        some ((rows0.filter fun r =>
            match e? with
            | none => false
            | some e =>
              decide (short_horizon - (e - (r.datetime + event_resolution)) ≤ r.horizon)).filter
          fun r =>
            match e? with
            | none => false
            | some e =>
              decide (r.horizon ≤ long_horizon - (e - (r.datetime + event_resolution))))
  | some short_horizon, none =>
    if rolling then
      some (rows0.filter fun r => decide (short_horizon ≤ r.horizon))
    else
      some (rows0.filter fun r =>
        match e? with
        | none => false
        | some e =>
          decide (short_horizon - (e - (r.datetime + event_resolution)) ≤ r.horizon))
  | none, some long_horizon =>
    if rolling then
      some (rows0.filter fun r => decide (r.horizon ≤ long_horizon))
    else
      some (rows0.filter fun r =>
        match e? with
        | none => false
        | some e =>
          decide (r.horizon ≤ long_horizon - (e - (r.datetime + event_resolution))))
  | none, none => some rows0

/-- Claim C5: with a non-`None` `belief_time` (and no horizon window), the
filter keeps exactly the rows whose belief time, i.e. the event end
`datetime + event_resolution` minus the row's `horizon`, is at or before the
given `belief_time`. -/
theorem add_horizon_filter_belief_time (rows : List TsRow) (e? : Option Datetime)
    (event_resolution : Timedelta) (rolling : Bool) (bt : Datetime) :
    ∃ out, add_horizon_filter rows e? event_resolution (none, none) rolling
        (some bt) = some out ∧
      ∀ r, r ∈ out ↔ r ∈ rows ∧ r.datetime + event_resolution - r.horizon ≤ bt := by
  refine ⟨_, rfl, ?_⟩
  intro r
  simp [List.mem_filter]

/-- Claim C6: with `short_horizon = long_horizon = h` (both non-`None`),
`rolling = true` keeps exactly the rows whose horizon equals `h`, while
`rolling = false` keeps exactly the rows whose horizon equals `h` minus the
difference between the query window end and the row's event end. -/
theorem add_horizon_filter_unique_horizon (rows : List TsRow)
    (event_resolution : Timedelta) (h : Timedelta) (e : Datetime) :
    (∃ out, add_horizon_filter rows (some e) event_resolution (some h, some h)
        true none = some out ∧
      ∀ r, r ∈ out ↔ r ∈ rows ∧ r.horizon = h) ∧
    (∃ out, add_horizon_filter rows (some e) event_resolution (some h, some h)
        false none = some out ∧
      ∀ r, r ∈ out ↔ r ∈ rows ∧
        r.horizon = h - (e - (r.datetime + event_resolution))) := by
  constructor
  · refine ⟨rows.filter fun r => decide (r.horizon = h), ?_, ?_⟩
    · simp [add_horizon_filter]
    · intro r
      simp [List.mem_filter]
  · refine ⟨rows.filter fun r =>
        decide (r.horizon = h - (e - (r.datetime + event_resolution))), ?_, ?_⟩
    · simp [add_horizon_filter]
    · intro r
      simp [List.mem_filter]

/-- Counterexample to claim C9 as stated: with `end = None`,
`rolling = false` and a lower horizon bound, `add_horizon_filter` does not
fail on this one-row query.  Building
`short_horizon - (end - (cls.datetime + asset_class.event_resolution))`
dispatches to the column expression's reflected operators, which coerce the
`None` operand to a NULL bind parameter, so a query is returned; its NULL
comparison matches no rows. -/
theorem add_horizon_filter_end_none_counterexample :
    add_horizon_filter ([⟨0, 60, 7, 1⟩] : List TsRow) none 15
      (some 60, none) false none = some [] := by decide

/-- Claim C9 (amended): with `rolling = false`, at least one horizon bound,
and `end = None`, `add_horizon_filter` still returns a query rather than
failing; the fixed belief-time comparisons are against a NULL bind parameter
coerced from the `None` end and are never true, so the returned query keeps
no rows. -/
theorem add_horizon_filter_end_none_matches_no_rows (rows : List TsRow)
    (event_resolution : Timedelta)
    (horizon_window : Option Timedelta × Option Timedelta)
    (belief_time : Option Datetime)
    (hne : horizon_window.1 ≠ none ∨ horizon_window.2 ≠ none) :
    add_horizon_filter rows none event_resolution horizon_window false
      belief_time = some [] := by
  rcases horizon_window with ⟨sh, lh⟩
  rcases sh with _ | sh <;> rcases lh with _ | lh
  · simp at hne
  · simp [add_horizon_filter]
  · simp [add_horizon_filter]
  · simp only [add_horizon_filter]
    split <;> simp

/-- Witness for the amended C9 with a single upper horizon bound. -/
theorem add_horizon_filter_end_none_matches_no_rows_witness :
    add_horizon_filter [] none 15 (none, some 30) false none = some [] :=
  add_horizon_filter_end_none_matches_no_rows [] 15 (none, some 30) none
    (by decide)

/-- Claim C7: when `user_source_ids` is non-empty, rows whose source type is
not `"user"` are all kept, and rows whose source type is `"user"` are kept
exactly when their `data_source_id` is listed; with `None` or an empty list
the query is unchanged.  `hnodup` records that `DataSource.id` is a primary
key. -/
theorem add_user_source_filter_spec (sources : List DataSource)
    (rows : List TsRow) (hnodup : (sources.map DataSource.id).Nodup) :
    (add_user_source_filter sources rows none = rows) ∧
    (add_user_source_filter sources rows (some []) = rows) ∧
    (∀ ids : List Int, ids ≠ [] → ∀ r ∈ rows, ∀ s ∈ sources,
      s.id = r.data_source_id →
      (r ∈ add_user_source_filter sources rows (some ids) ↔
        (s.type = "user" → r.data_source_id ∈ ids))) := by
  refine ⟨rfl, rfl, ?_⟩
  intro ids hids r hr s hs hsid
  have hinj := List.inj_on_of_nodup_map hnodup
  simp only [add_user_source_filter, List.isEmpty_iff, if_neg hids]
  rw [List.mem_filter]
  simp only [hr, true_and, decide_eq_true_eq, List.mem_map, List.mem_filter]
  constructor
  · intro hkeep htype
    by_contra hnotin
    exact hkeep ⟨s, ⟨⟨hs, by simp [htype]⟩, by simp [hsid, hnotin]⟩, hsid⟩
  · rintro himp ⟨s2, ⟨⟨hs2, htype2⟩, hnotin2⟩, hid2⟩
    have : s2 = s := hinj hs2 hs (by rw [hid2, hsid])
    subst this
    exact hnotin2 (hid2 ▸ himp htype2)

/-- Witness for C7: a row from user source 1 survives the filter for
`user_source_ids = [1]`. -/
theorem add_user_source_filter_spec_witness :
    ({ datetime := 0, horizon := 0, value := 0, data_source_id := 1 } : TsRow) ∈
      add_user_source_filter
        [{ id := 1, type := "user" }, { id := 2, type := "script" }]
        [{ datetime := 0, horizon := 0, value := 0, data_source_id := 1 }]
        (some [1]) :=
  ((add_user_source_filter_spec
      [{ id := 1, type := "user" }, { id := 2, type := "script" }]
      [{ datetime := 0, horizon := 0, value := 0, data_source_id := 1 }]
      (by decide)).2.2
    [1] (by decide)
    { datetime := 0, horizon := 0, value := 0, data_source_id := 1 } (by decide)
    { id := 1, type := "user" } (by decide) (by decide)).mpr (by decide)

/-! ### src/bvp/data/services/forecasting.py -/

/-- The observable steps of `make_forecasts`, in program order:
`get_data_source`, `get_asset`, building the model specs via
`latest_generic_model`, `make_rolling_forecasts`, `save_to_database`
(with its `overwrite` argument), the warning logged on `IntegrityError`,
and `db.session.rollback`. -/
inductive Action where
  | getDataSource
  | getAsset
  | buildModel
  | makeRollingForecasts
  | save (overwrite : Bool)
  | logWarning
  | rollback
deriving DecidableEq

/-- The exception raised by `make_forecasts` itself. -/
inductive ForecastingError where
  | invalidHorizon
deriving DecidableEq

/-- `make_forecasts` as a trace of actions plus an optional raised exception.
`supported_horizons` (from `bvp.utils.time_utils`, outside this slice) is a
parameter; `save_raises_integrity_error` abstracts whether the first
`save_to_database` call hits a uniqueness violation; `bvp_mode` is the
configured `BVP_MODE`. -/
def make_forecasts (horizon : Timedelta) (supported_horizons : List Timedelta)
    (bvp_mode : String) (save_raises_integrity_error : Bool) :
    List Action × Option ForecastingError :=
  let pre := [Action.getDataSource, Action.getAsset]
  if horizon ∉ supported_horizons then
    (pre, some .invalidHorizon)
  else
    (pre ++ [Action.buildModel, Action.makeRollingForecasts] ++
      (if save_raises_integrity_error then
        [Action.save false, Action.logWarning, Action.rollback] ++
          (if bvp_mode = "play" then [Action.save true] else [])
      else
        [Action.save false]),
      none)

/-- The keyword arguments a forecasting job is created with. -/
structure JobSpec where
  asset_id : Int
  timed_value_type : String
  horizon : Timedelta
  start : Datetime
  end_ : Datetime
deriving DecidableEq

/-- Outcome of `create_forecasting_jobs`: the raised exception message if
any, the jobs created, and the jobs put on the queue. -/
structure JobsResult where
  error : Option String
  jobs : List JobSpec
  enqueued : List JobSpec
deriving DecidableEq

def cannot_create_jobs_message : String :=
  "Cannot create forecasting jobs - set either horizons or resolution."

/-- `create_forecasting_jobs`: `forecast_horizons_for` (from
`bvp.utils.time_utils`, outside this slice) is a parameter, used only when
`horizons` is `None` and `resolution` is given. -/
def create_forecasting_jobs (timed_value_type : String) (asset_id : Int)
    (start_of_roll end_of_roll : Datetime)
    (resolution : Option Timedelta) (horizons : Option (List Timedelta))
    (enqueue : Bool)
    (forecast_horizons_for : Timedelta → List Timedelta) : JobsResult :=
  match horizons, resolution with
  | none, none =>
    { error := some cannot_create_jobs_message, jobs := [], enqueued := [] }
  | none, some r => mk_jobs (forecast_horizons_for r)
  | some hs, _ => mk_jobs hs
where
  mk_jobs (hs : List Timedelta) : JobsResult :=
    let jobs := hs.map fun h =>
      { asset_id := asset_id, timed_value_type := timed_value_type,
        horizon := h, start := start_of_roll + h, end_ := end_of_roll + h }
    { error := none, jobs := jobs, enqueued := if enqueue then jobs else [] }

/-- Claim C1: on an `IntegrityError` during save, the session is rolled back
exactly once and the save is retried exactly once with `overwrite=True` when
`BVP_MODE = "play"`, the retry coming after the rollback; in any other mode
there is no retry, and without an `IntegrityError` there is no rollback. -/
theorem make_forecasts_retry_on_integrity_error (horizon : Timedelta)
    (supported : List Timedelta) (mode : String) (hin : horizon ∈ supported) :
    ((make_forecasts horizon supported mode true).1.count Action.rollback = 1) ∧
    ((make_forecasts horizon supported mode true).1.count (Action.save true) =
      if mode = "play" then 1 else 0) ∧
    (mode = "play" →
      (make_forecasts horizon supported mode true).1.indexOf Action.rollback <
        (make_forecasts horizon supported mode true).1.indexOf (Action.save true)) ∧
    ((make_forecasts horizon supported mode false).1.count Action.rollback = 0) := by
  by_cases hm : mode = "play" <;>
    simp [make_forecasts, hin, hm]

/-- Witness for C1 at a supported horizon of 6 hours in play mode. -/
theorem make_forecasts_retry_on_integrity_error_witness :
    (make_forecasts 360 [360] ("play") true).1.count Action.rollback = 1 ∧
    (make_forecasts 360 [360] ("play") true).1.count (Action.save true) =
      (if ("play" : String) = "play" then 1 else 0) :=
  ⟨(make_forecasts_retry_on_integrity_error 360 [360] ("play") (by decide)).1,
    (make_forecasts_retry_on_integrity_error 360 [360] ("play") (by decide)).2.1⟩

/-- Claim C2: `make_forecasts` raises `InvalidHorizonException` exactly when
the horizon is not among the supported horizons, and on that path no model
is built, no rolling forecast is made, and nothing is saved. -/
theorem make_forecasts_invalid_horizon_iff (horizon : Timedelta)
    (supported : List Timedelta) (mode : String) (sr : Bool) :
    ((make_forecasts horizon supported mode sr).2 =
        some ForecastingError.invalidHorizon ↔ horizon ∉ supported) ∧
    (horizon ∉ supported →
      Action.buildModel ∉ (make_forecasts horizon supported mode sr).1 ∧
      Action.makeRollingForecasts ∉ (make_forecasts horizon supported mode sr).1 ∧
      ∀ b, Action.save b ∉ (make_forecasts horizon supported mode sr).1) := by
  by_cases hs : horizon ∈ supported <;>
    simp [make_forecasts, hs]

/-- Witness for C2 at the unsupported horizon 7. -/
theorem make_forecasts_invalid_horizon_iff_witness :
    (make_forecasts 7 [360] ("play") true).2 =
        some ForecastingError.invalidHorizon ∧
      Action.buildModel ∉ (make_forecasts 7 [360] ("play") true).1 :=
  ⟨(make_forecasts_invalid_horizon_iff 7 [360] ("play") true).1.mpr (by decide),
    ((make_forecasts_invalid_horizon_iff 7 [360] ("play") true).2 (by decide)).1⟩

/-- Claim C4: for a non-empty list of horizons, exactly one job is created
per horizon, in list order, with the job's forecast period being the rolling
window shifted by that horizon. -/
theorem create_forecasting_jobs_windows (tvt : String) (aid : Int)
    (sor eor : Datetime) (res : Option Timedelta) (hs : List Timedelta)
    (enq : Bool) (fhf : Timedelta → List Timedelta) (hne : hs ≠ []) :
    (create_forecasting_jobs tvt aid sor eor res (some hs) enq fhf).error =
      none ∧
    (create_forecasting_jobs tvt aid sor eor res (some hs) enq fhf).jobs.length =
      hs.length ∧
    ∀ i : Nat,
      (create_forecasting_jobs tvt aid sor eor res (some hs) enq fhf).jobs[i]? =
        (hs[i]?).map fun h =>
          { asset_id := aid, timed_value_type := tvt, horizon := h,
            start := sor + h, end_ := eor + h } := by
  refine ⟨rfl, by simp [create_forecasting_jobs, create_forecasting_jobs.mk_jobs], ?_⟩
  intro i
  simp [create_forecasting_jobs, create_forecasting_jobs.mk_jobs]

/-- Witness for C4 with a single one-hour horizon. -/
theorem create_forecasting_jobs_windows_witness :
    (create_forecasting_jobs ("Power") 1 0 100 none (some [60]) true
      (fun _ => ([] : List Timedelta))).error = none :=
  (create_forecasting_jobs_windows ("Power") 1 0 100 none [60] true
    (fun _ => ([] : List Timedelta)) (by decide)).1

/-- Claim C10: with both `horizons` and `resolution` equal to `None`,
`create_forecasting_jobs` raises, creating no job and enqueueing no job. -/
theorem create_forecasting_jobs_none_none (tvt : String) (aid : Int)
    (sor eor : Datetime) (enq : Bool)
    (fhf : Timedelta → List Timedelta) :
    (create_forecasting_jobs tvt aid sor eor none none enq fhf).error =
      some cannot_create_jobs_message ∧
    (create_forecasting_jobs tvt aid sor eor none none enq fhf).jobs = [] ∧
    (create_forecasting_jobs tvt aid sor eor none none enq fhf).enqueued = [] :=
  ⟨rfl, rfl, rfl⟩

end Bvp
